import Mathlib

/-
  Verification development for the JFK customs simulation
  (src/customs_obj.py and src/customs.py).

  Embedding conventions:

  * The code targets Python 2 (both files import print_function from
    the future module, and customs_obj._get_ttime relies on integer
    division of ints by the / operator).  Python-2 semantics are
    therefore modelled: / on ints is floor division, and comparing an
    int with None by < yields False (None sorts below every int).
  * Python strings are modelled as List Char.
  * Module-level global names that are read but never bound in
    customs_obj.py (GLOBAL_TIME, passenger, subsections) are modelled
    as Option-typed parameters; the value none states that the name is
    unbound, and reading an unbound name raises NameError.  In every
    real run of the program these globals are unbound, because
    customs.py binds its own locals in a different module.
  * Attribute mutations that Python performs before an exception is
    raised persist on the object; functions therefore return the
    partially updated state together with an Option PyError.
  * The numpy global random stream is modelled as a function
    rng : Nat -> Nat plus a cursor; each call of np.random.triangular
    consumes one raw draw and maps it into the support of the
    distribution.  No call of np.random.seed exists in the sources.
-/

/-- Runtime errors of the embedded Python fragments. -/
inductive PyError where
  | nameErrorGlobalTime
  | nameErrorPassenger
  | nameErrorSubsections
  | indexError
  | attributeErrorAssignmentAgent
  | attributeErrorAppend
  | typeError
  | valueError
  deriving DecidableEq, Repr

/- ================= time-string helpers (customs_obj.py 33-72) ========== -/

/-- Digit value of one character, none when the character is not a
decimal digit (Python int() raises ValueError there). -/
def charDigit (c : Char) : Option Nat :=
  if c.isDigit then some (c.toNat - 48) else none

/-- Accumulator pass of the decimal parser. -/
def charsToNatAux : List Char → Nat → Option Nat
  | [], acc => some acc
  | c :: rest, acc =>
    match charDigit c with
    | some d => charsToNatAux rest (acc * 10 + d)
    | none => none

/-- Python int() on a string of decimal digits; none models ValueError
(raised on the empty string or on any non-digit character). -/
def charsToNat : List Char → Option Nat
  | [] => none
  | c :: rest => charsToNatAux (c :: rest) 0

/-- Accumulator pass of str.split. -/
def pySplitAux (sep : Char) : List Char → List Char → List (List Char)
  | [], acc => [acc.reverse]
  | c :: rest, acc =>
    if c == sep then acc.reverse :: pySplitAux sep rest []
    else pySplitAux sep rest (c :: acc)

/-- Python str.split(sep) for a one-character separator. -/
def pySplit (sep : Char) (s : List Char) : List (List Char) :=
  pySplitAux sep s []

/-- Embedding of _get_sec (customs_obj.py 33-46): split on a colon into exactly
three fields, convert each with int(), return h*3600 + m*60 + s.
none models the ValueError raised on any other shape. -/
def getSec (time_str : List Char) : Option Nat :=
  match pySplit ':' time_str with
  | [h, m, s] =>
    match charsToNat h, charsToNat m, charsToNat s with
    | some hv, some mv, some sv => some (hv * 3600 + mv * 60 + sv)
    | _, _, _ => none
  | _ => none

/-- Python str() of a natural number. -/
def pyStr (n : Nat) : List Char :=
  (Nat.repr n).data

/-- The zero padding of _get_ttime: prepend a zero when n / 10 == 0. -/
def pad2 (n : Nat) : List Char :=
  if n / 10 == 0 then '0' :: pyStr n else pyStr n

/-- Embedding of _get_ttime (customs_obj.py 49-72) under Python-2 division:
h = seconds/3600, m = (seconds%3600)/60, s = (seconds%3600)%60,
each zero-padded to two characters and joined by colons. -/
def getTtime (seconds : Nat) : List Char :=
  pad2 (seconds / 3600) ++ (':' :: (pad2 (seconds % 3600 / 60) ++ (':' :: pad2 (seconds % 3600 % 60))))

/-- Shape check for an HH:MM:SS string: eight characters, digits in the
six value positions and colons in positions two and five. -/
def isHMS (cs : List Char) : Bool :=
  match cs with
  | [a, b, c, d, e, f, g, h] =>
    a.isDigit && b.isDigit && c == ':' && d.isDigit && e.isDigit &&
      f == ':' && g.isDigit && h.isDigit
  | _ => false

/-- Shape check for one padded component: two characters, both decimal
digits and neither a colon. -/
def goodPad (cs : List Char) : Bool :=
  cs.length == 2 && cs.all (fun c => c.isDigit && c != ':')

/- ================= data model (customs_obj.py) ======================== -/

/-- Passenger (customs_obj.py 291-307).  Python strings are List Char;
soujourn_time is initialized to -1; service_time is Option Nat because
init_service_time returns None for a nationality that is neither
domestic nor foreign. -/
structure Passenger where
  id : Nat
  flight_num : List Char
  arrival_time : List Char
  first_name : List Char
  last_name : List Char
  birthdate : List Char
  nationality : List Char
  enque_time : Nat
  soujourn_time : Int
  service_time : Option Nat
  connect_flight : Bool
  processed : Bool
  deriving DecidableEq, Repr

/-- ServicedPassengers (customs_obj.py 693-705): the shared ledger
object; it owns a passengers list and has no append method of its own. -/
structure ServicedPassengers where
  passengers : List Passenger
  deriving DecidableEq, Repr

/-- ServiceAgent state (customs_obj.py 644-658).  The shared
output_queue pointer is passed separately to the functions that use it.
max_queue_size is Option Nat because __init__ sets it to None and no
other code assigns it. -/
structure ServiceAgent where
  online : Bool
  id : Nat
  queue : List Passenger
  is_serving : Bool
  current_passenger : Option Passenger
  max_queue_size : Option Nat
  deriving DecidableEq, Repr

/-- ServiceAgent.__init__ (customs_obj.py 644-658). -/
def ServiceAgent.init (server_id : Nat) : ServiceAgent :=
  { online := false, id := server_id, queue := [], is_serving := false,
    current_passenger := none, max_queue_size := none }

/-- ParallelServer state (customs_obj.py 486-498):
has_space_in_a_server_queue is initialized True and min_queue None;
the two update methods return values and nothing in the sources ever
stores their results back into these attributes. -/
structure ParallelServer where
  server_list : List ServiceAgent
  has_space_in_a_server_queue : Bool
  queue_size : Nat
  min_queue : Option ServiceAgent
  deriving DecidableEq, Repr

/-- ParallelServer.__init__ (customs_obj.py 486-498) given an already
built server list. -/
def ParallelServer.init (server_list : List ServiceAgent) : ParallelServer :=
  { server_list := server_list, has_space_in_a_server_queue := true,
    queue_size := 0, min_queue := none }

/-- AssignmentAgent state (customs_obj.py 601-609): only these two
attributes are ever assigned by __init__. -/
structure AssignmentAgent where
  queue : List Passenger
  current_passenger : Option Passenger
  deriving DecidableEq, Repr

/-- AssignmentAgent.__init__ (customs_obj.py 601-609). -/
def AssignmentAgent.init : AssignmentAgent :=
  { queue := [], current_passenger := none }

/-- Subsection (customs_obj.py 444-466). -/
structure Subsection where
  id : List Char
  parallel_server : ParallelServer
  assignment_agent : AssignmentAgent
  deriving DecidableEq, Repr

/-- Plane (customs_obj.py 198-231).  Fields mirror __init__. -/
structure Plane where
  id : Nat
  origin : List Char
  airport_code : List Char
  arrival_time : List Char
  airline : List Char
  flight_num : List Char
  terminal : List Char
  num_dom_passengers : Nat
  num_intl_passengers : Nat
  plist : List Passenger
  deriving DecidableEq, Repr

/-- The staffing schedule dataframe: the named columns in order, and
one row per server as (value of the id column, cells aligned with the
column list). -/
structure ScheduleTable where
  colNames : List (List Char)
  rows : List (Nat × List Int)
  deriving DecidableEq, Repr

/- ================= service-time sampling (customs_obj.py 75-93, 310-317) -/

/-- service_dist_dom (customs_obj.py 29). -/
def service_dist_dom : (List Char) × (List Char) × (List Char) :=
  (['0','0',':','0','0',':','3','0'],
   ['0','0',':','0','0',':','4','5'],
   ['0','0',':','0','2',':','0','0'])

/-- service_dist_intl (customs_obj.py 30). -/
def service_dist_intl : (List Char) × (List Char) × (List Char) :=
  (['0','0',':','0','0',':','4','5'],
   ['0','0',':','0','1',':','0','0'],
   ['0','0',':','0','2',':','1','5'])

/-- sample_from_triangular (customs_obj.py 75-93): converts the three
distribution parameters with _get_sec (none models the ValueError on a
malformed parameter) and then makes one draw from the global numpy
stream.  The draw is modelled as the raw value at the current cursor
mapped into the support [lower, upper]; the cursor advances by one. -/
def sample_from_triangular (service_dist : (List Char) × (List Char) × (List Char))
    (rng : Nat → Nat) (ix : Nat) : Option (Nat × Nat) :=
  match getSec service_dist.1, getSec service_dist.2.1, getSec service_dist.2.2 with
  | some lower, some _mode, some upper =>
    some (lower + rng ix % (upper - lower + 1), ix + 1)
  | _, _, _ => none

/-- Passenger.init_service_time (customs_obj.py 310-317): samples for
domestic or foreign nationality and implicitly returns None (without a
draw) for any other nationality. -/
def init_service_time (nationality : List Char) (rng : Nat → Nat) (ix : Nat) :
    Option (Option Nat × Nat) :=
  if nationality = ['d','o','m','e','s','t','i','c'] then
    (sample_from_triangular service_dist_dom rng ix).map (fun r => (some r.1, r.2))
  else if nationality = ['f','o','r','e','i','g','n'] then
    (sample_from_triangular service_dist_intl rng ix).map (fun r => (some r.1, r.2))
  else some (none, ix)

/-- Passenger.__init__ (customs_obj.py 291-307): enque_time is
_get_sec(arrival_time) (none models its ValueError) and service_time is
drawn by init_service_time at construction; the RNG cursor after the
construction is returned alongside the passenger. -/
def Passenger.init (pid : Nat)
    (flight_num arrival_time first_name last_name birthdate nationality : List Char)
    (rng : Nat → Nat) (ix : Nat) : Option (Passenger × Nat) :=
  match getSec arrival_time with
  | none => none
  | some enq =>
    match init_service_time nationality rng ix with
    | none => none
    | some (st, ix2) =>
      some ({ id := pid, flight_num := flight_num, arrival_time := arrival_time,
              first_name := first_name, last_name := last_name,
              birthdate := birthdate, nationality := nationality,
              enque_time := enq, soujourn_time := -1, service_time := st,
              connect_flight := false, processed := false }, ix2)

/-- One row of a flight passenger manifest:
(id, flight_num, first_name, last_name, birthdate, nationality). -/
def ManifestRow : Type :=
  Nat × (List Char) × (List Char) × (List Char) × (List Char) × (List Char)

/-- Plane.init_plist (customs_obj.py 233-271): builds one Passenger per
manifest row, in order, threading the shared RNG cursor. -/
def init_plist (arrival_time : List Char) (passenger_list : List ManifestRow)
    (rng : Nat → Nat) (ix : Nat) : Option (List Passenger × Nat) :=
  match passenger_list with
  | [] => some ([], ix)
  | (pid, fnum, fname, lname, bdate, natl) :: rest =>
    match Passenger.init pid fnum arrival_time fname lname bdate natl rng ix with
    | none => none
    | some (p, ix2) =>
      match init_plist arrival_time rest rng ix2 with
      | none => none
      | some (ps, ix3) => some (p :: ps, ix3)

/- ================= ServiceAgent.serve (customs_obj.py 660-690) ========= -/

/-- Second statement block of serve: if self.is_serving is True, the
code reads the module-level global name passenger (never bound in
customs_obj.py) and GLOBAL_TIME, waits while passenger.soujourn_time >
GLOBAL_TIME, and on equality sets passenger.processed = True and then
calls self.output_queue.append(passenger); ServicedPassengers has no
append attribute, so that call raises AttributeError before is_serving
and current_passenger are reset.  Mutations made before an exception
persist and are returned next to the error. -/
def serveSecond (a : ServiceAgent) (pvar : Option Passenger) (gt : Option Int)
    (out : ServicedPassengers) :
    ServiceAgent × Option Passenger × ServicedPassengers × Option PyError :=
  if a.is_serving = true then
    match pvar with
    | none => (a, pvar, out, some PyError.nameErrorPassenger)
    | some pv =>
      match gt with
      | none => (a, pvar, out, some PyError.nameErrorGlobalTime)
      | some t =>
        if pv.soujourn_time > t then (a, pvar, out, none)
        else if pv.soujourn_time = t then
          (a, some { pv with processed := true }, out, some PyError.attributeErrorAppend)
        else (a, pvar, out, none)
  else (a, pvar, out, none)

/-- ServiceAgent.serve (customs_obj.py 660-690).  First block: if
self.is_serving is False it pops the head of its queue into
current_passenger, sets is_serving, and then executes
passenger.soujourn_time = GLOBAL_TIME + passenger.service_time, whose
right side reads the global GLOBAL_TIME first and the global passenger
second (both unbound in every real run, hence NameError); with both
bound, adding None (a missing service_time) to an int raises TypeError.
The second block then runs on the updated state. -/
def serve (a : ServiceAgent) (pvar : Option Passenger) (gt : Option Int)
    (out : ServicedPassengers) :
    ServiceAgent × Option Passenger × ServicedPassengers × Option PyError :=
  if a.is_serving = false then
    match a.queue with
    | [] => (a, pvar, out, some PyError.indexError)
    | p :: rest =>
      let a2 := { a with queue := rest, current_passenger := some p,
                         is_serving := true }
      match gt with
      | none => (a2, pvar, out, some PyError.nameErrorGlobalTime)
      | some t =>
        match pvar with
        | none => (a2, pvar, out, some PyError.nameErrorPassenger)
        | some pv =>
          match pv.service_time with
          | none => (a2, pvar, out, some PyError.typeError)
          | some st =>
            serveSecond a2 (some { pv with soujourn_time := t + (st : Int) }) (some t) out
  else serveSecond a pvar gt out

/-- ParallelServer.service_passengers (customs_obj.py 525-541): for
every server in list order, if its queue is non-empty, call serve; the
online flag is never consulted.  An exception stops the sweep, leaving
the remaining servers untouched. -/
def service_passengers (servers : List ServiceAgent) (pvar : Option Passenger)
    (gt : Option Int) (out : ServicedPassengers) :
    List ServiceAgent × Option Passenger × ServicedPassengers × Option PyError :=
  match servers with
  | [] => ([], pvar, out, none)
  | a :: rest =>
    if a.queue.length > 0 then
      match serve a pvar gt out with
      | (a2, pvar2, out2, some e) => (a2 :: rest, pvar2, out2, some e)
      | (a2, pvar2, out2, none) =>
        let r := service_passengers rest pvar2 gt out2
        (a2 :: r.1, r.2.1, r.2.2.1, r.2.2.2)
    else
      let r := service_passengers rest pvar gt out
      (a :: r.1, r.2.1, r.2.2.1, r.2.2.2)

/- ======= ParallelServer queue selection (customs_obj.py 543-586) ====== -/

/-- Python-2 comparison len(queue) < max_queue_size where
max_queue_size may be None: in Python 2, an int is never < None. -/
def py2LtNatOpt (n : Nat) : Option Nat → Bool
  | none => false
  | some v => n < v

/-- The qualification test shared by update_min_queue and
update_has_space_in_a_server_queue (customs_obj.py 558 and 582):
len(server.queue) < server.max_queue_size and server.online is True. -/
def qualifies (s : ServiceAgent) : Bool :=
  py2LtNatOpt s.queue.length s.max_queue_size && s.online

/-- Loop body of ParallelServer.update_min_queue (customs_obj.py
543-565): the running min_queue starts as None and is replaced by every
qualifying server whose queue length is <= the current minimum. -/
def minQueueLoop (mq : Option ServiceAgent) : List ServiceAgent → Option ServiceAgent
  | [] => mq
  | s :: rest =>
    if qualifies s then
      match mq with
      | none => minQueueLoop (some s) rest
      | some m =>
        if s.queue.length ≤ m.queue.length then minQueueLoop (some s) rest
        else minQueueLoop (some m) rest
    else minQueueLoop mq rest

/-- ParallelServer.update_min_queue (customs_obj.py 543-565). -/
def update_min_queue (servers : List ServiceAgent) : Option ServiceAgent :=
  minQueueLoop none servers

/-- ParallelServer.update_has_space_in_a_server_queue (customs_obj.py
567-586): scan with early break for an online server with space. -/
def update_has_space_in_a_server_queue : List ServiceAgent → Bool
  | [] => false
  | s :: rest =>
    if qualifies s then true else update_has_space_in_a_server_queue rest

/-- Reference selection for the amended claim C4: among a list of
servers, the entry with the smallest queue length, ties resolved in
favor of the LAST tied entry in list order; none on the empty list. -/
def lastMinBy : List ServiceAgent → Option ServiceAgent
  | [] => none
  | s :: rest =>
    match lastMinBy rest with
    | none => some s
    | some m => if s.queue.length < m.queue.length then some s else some m

/-- One folding step of lastMinBy, named so proofs can rewrite it. -/
def stepMin (s : ServiceAgent) : Option ServiceAgent → Option ServiceAgent
  | none => some s
  | some t => if s.queue.length < t.queue.length then some s else some t

/- ========= AssignmentAgent.assign_passengers (customs_obj.py 611-625) = -/

/-- AssignmentAgent.assign_passengers (customs_obj.py 611-625): when the
passed pool object has has_space_in_a_server_queue True, the body
evaluates self.assignment_agent.queue.pop(0); AssignmentAgent instances
define only queue and current_passenger, so the attribute read raises
AttributeError and nothing moves.  (The subsequent line would read the
equally missing self.parallel_server, and would append the passenger to
min_queue, a ServiceAgent object or None, not to a queue.) -/
def assign_passengers (self : AssignmentAgent) (parallel_server_obj : ParallelServer) :
    AssignmentAgent × ParallelServer × Option PyError :=
  if parallel_server_obj.has_space_in_a_server_queue = true then
    (self, parallel_server_obj, some PyError.attributeErrorAssignmentAgent)
  else (self, parallel_server_obj, none)

/- ========= Customs.handle_arrivals (customs_obj.py 383-404) =========== -/

/-- Outcome of handle_arrivals: the final binding of the global
subsections list, NameError, or fuel exhaustion (the while loop made no
progress within the given fuel). -/
inductive HAOutcome where
  | done (subsectionsVar : Option (List Subsection))
  | nameErr
  | fuelOut
  deriving DecidableEq

/-- Inner for loop of handle_arrivals: find the first section whose id
equals the nationality of the passenger and append the passenger to its
assignment_agent queue (then break). -/
def routeOne (subs : List Subsection) (natl : List Char) (p : Passenger) :
    Option (List Subsection) :=
  match subs with
  | [] => none
  | s :: rest =>
    if s.id = natl then
      some ({ s with assignment_agent :=
        { s.assignment_agent with queue := s.assignment_agent.queue ++ [p] } } :: rest)
    else (routeOne rest natl p).map (fun r => s :: r)

/-- While loop of handle_arrivals: while the plist of the plane is
non-empty, look at its LAST element (plane.plist[len(plane.plist)-1]),
route it by nationality and pop it from the end; when no section id
matches, the iteration changes nothing and the loop never terminates. -/
def handleArrivalsLoop : List Subsection → List Passenger → Nat → HAOutcome
  | subs, plist, 0 =>
    match plist.getLast? with
    | none => HAOutcome.done (some subs)
    | some _ => HAOutcome.fuelOut
  | subs, plist, fuel + 1 =>
    match plist.getLast? with
    | none => HAOutcome.done (some subs)
    | some p =>
      match routeOne subs p.nationality p with
      | some subs2 => handleArrivalsLoop subs2 plist.dropLast fuel
      | none => handleArrivalsLoop subs plist fuel

/-- Customs.handle_arrivals (customs_obj.py 383-404): returns at once
for a None plane; otherwise, while the plist is non-empty, iterates
over the free name subsections, a module-level global that is never
bound (the method body never references self.subsections), so the
first loop iteration raises NameError in every real run. -/
def handle_arrivals (subsectionsVar : Option (List Subsection))
    (plane : Option Plane) (fuel : Nat) : HAOutcome :=
  match plane with
  | none => HAOutcome.done subsectionsVar
  | some pl =>
    match pl.plist.getLast? with
    | none => HAOutcome.done subsectionsVar
    | some _ =>
      match subsectionsVar with
      | none => HAOutcome.nameErr
      | some subs => handleArrivalsLoop subs pl.plist fuel

/- ========= Customs.update_servers (customs_obj.py 407-441) ============ -/

/-- re.search of the pattern digit-dash-digit anywhere in a column
name (customs_obj.py 423). -/
def hasDigitDashDigit : List Char → Bool
  | a :: b :: c :: rest =>
    (a.isDigit && b == '-' && c.isDigit) || hasDigitDashDigit (b :: c :: rest)
  | _ => false

/-- Column scan of update_servers (customs_obj.py 422-427): for each
column whose name contains digit-dash-digit, evaluate
the lower bound via _get_sec on the part before the dash joined with
the suffix :00:00 (ValueError propagates), read
the global GLOBAL_TIME (NameError when unbound), and if the lower bound
is <= GLOBAL_TIME evaluate the upper bound the same way; on
lower <= GLOBAL_TIME <= upper the column index is chosen and the scan
breaks.  Returns the chosen index or none when no column matched. -/
def findTimeIdx (gt : Option Int) : List (List Char) → Nat → Except PyError (Option Nat)
  | [], _ => Except.ok none
  | col :: rest, idx =>
    if hasDigitDashDigit col then
      match (pySplit '-' col).head? with
      | none => Except.error PyError.indexError
      | some p0 =>
        match getSec (p0 ++ [':','0','0',':','0','0']) with
        | none => Except.error PyError.valueError
        | some lo =>
          match gt with
          | none => Except.error PyError.nameErrorGlobalTime
          | some t =>
            if (lo : Int) ≤ t then
              match (pySplit '-' col)[1]? with
              | none => Except.error PyError.indexError
              | some p1 =>
                match getSec (p1 ++ [':','0','0',':','0','0']) with
                | none => Except.error PyError.valueError
                | some hi =>
                  if t ≤ (hi : Int) then Except.ok (some idx)
                  else findTimeIdx gt rest (idx + 1)
            else findTimeIdx gt rest (idx + 1)
    else findTimeIdx gt rest (idx + 1)

/-- Per-server body of update_servers (customs_obj.py 432-441): filter
the schedule rows by id; indexing the filtered frame with a None column
index raises TypeError; an empty match raises IndexError at values[0];
otherwise the cell value drives server.is_serving - the online flag is
NEVER assigned by this method. -/
def updateOneServer (sched : ScheduleTable) (tidx : Option Nat) (a : ServiceAgent) :
    Except PyError ServiceAgent :=
  match tidx with
  | none => Except.error PyError.typeError
  | some i =>
    match sched.rows.filter (fun r => r.fst == a.id) with
    | [] => Except.error PyError.indexError
    | r :: _ =>
      match r.snd[i]? with
      | none => Except.error PyError.indexError
      | some v => Except.ok { a with is_serving := v == 1 }

/-- Inner loop over one server list, retaining the partial updates made
before an exception. -/
def updateServerList (sched : ScheduleTable) (tidx : Option Nat) :
    List ServiceAgent → List ServiceAgent × Option PyError
  | [] => ([], none)
  | a :: rest =>
    match updateOneServer sched tidx a with
    | Except.error e => (a :: rest, some e)
    | Except.ok a2 =>
      let r := updateServerList sched tidx rest
      (a2 :: r.1, r.2)

/-- Outer loop of update_servers over self.subsections. -/
def updateSections (sched : ScheduleTable) (tidx : Option Nat) :
    List Subsection → List Subsection × Option PyError
  | [] => ([], none)
  | sec :: rest =>
    match updateServerList sched tidx sec.parallel_server.server_list with
    | (sl, some e) =>
      ({ sec with parallel_server := { sec.parallel_server with server_list := sl } }
        :: rest, some e)
    | (sl, none) =>
      let r := updateSections sched tidx rest
      ({ sec with parallel_server := { sec.parallel_server with server_list := sl } }
        :: r.1, r.2)

/-- Customs.update_servers (customs_obj.py 407-441).  gt is the value
of the module-level global GLOBAL_TIME (none = unbound, which is the
case in every real run: customs.py keeps its own GLOBAL_TIME local to a
different module). -/
def update_servers (subsections : List Subsection) (server_schedule : ScheduleTable)
    (gt : Option Int) : List Subsection × Option PyError :=
  match findTimeIdx gt server_schedule.colNames 0 with
  | Except.error e => (subsections, some e)
  | Except.ok tidx => updateSections server_schedule tidx subsections

/- ========= optimize, inner per-hour loop (customs.py 189-360) ========= -/

/-- momentum (customs.py 206). -/
def momentum : Int := 3

/-- The momentum increase with its upper clamp (customs.py 249-257). -/
def momentumStepUp (num_servers max_val : Int) : Int :=
  let n := num_servers + momentum
  if n > max_val then max_val else n

/-- The momentum decrease with its lower clamp (customs.py 259-267). -/
def momentumStepDown (num_servers : Int) : Int :=
  let n := num_servers - momentum
  if n < 1 then 1 else n

/-- adjust_schedule (customs.py 127-143): write num_servers into the
hour columns starting_hour..23 of the (single-row) working schedule,
modelled as the list of the 24 hourly cells. -/
def adjust_schedule : Nat → Int → List Int → List Int
  | _, _, [] => []
  | 0, n, _ :: rest => n :: adjust_schedule 0 n rest
  | h + 1, n, v :: rest => v :: adjust_schedule h n rest

/-- State of the per-hour optimization loop: the current num_servers,
the 24 hourly cells of the working schedule, and the pending results of
the remaining simulate calls.  Each simulate call is one oracle entry
(wait of the current hour bucket, wait of the previous hour bucket);
the oracle is an input because simulate is stochastic - every run
resamples every service time from the unseeded numpy stream. -/
structure HourSt where
  num_servers : Int
  sched : List Int
  oracle : List (Int × Int)
  deriving DecidableEq, Repr

/-- One simulate call: consume the next oracle entry. -/
def runSim (st : HourSt) : Option ((Int × Int) × HourSt) :=
  match st.oracle with
  | [] => none
  | w :: rest => some (w, { st with oracle := rest })

/-- Backtracking loop after crossing the threshold downward
(customs.py 278-300): up to momentum-1 times remove one server, write
the schedule, re-simulate; when the wait rises back over the threshold,
restore one server, write the schedule and stop.  No bound check. -/
def backtrackDown (T : Int) (hour : Nat) : Nat → HourSt → Option HourSt
  | 0, st => some st
  | k + 1, st =>
    let st1 := { st with num_servers := st.num_servers - 1 }
    let st2 := { st1 with sched := adjust_schedule hour st1.num_servers st1.sched }
    match runSim st2 with
    | none => none
    | some (d, st3) =>
      if d.1 ≥ T then
        let st4 := { st3 with num_servers := st3.num_servers + 1 }
        some { st4 with sched := adjust_schedule hour st4.num_servers st4.sched }
      else backtrackDown T hour k st3

/-- Backtracking loop after crossing the threshold upward (customs.py
304-323): up to momentum times add one server, write the schedule,
re-simulate, stopping as soon as the wait falls under the threshold.
No upper bound check against max_val.  Returns the state and the data
of the last simulate call (used for the previous-hour lookup). -/
def backtrackUp (T : Int) (hour : Nat) : Nat → HourSt → (Int × Int) →
    Option (HourSt × (Int × Int))
  | 0, st, d => some (st, d)
  | k + 1, st, _d =>
    let st1 := { st with num_servers := st.num_servers + 1 }
    let st2 := { st1 with sched := adjust_schedule hour st1.num_servers st1.sched }
    match runSim st2 with
    | none => none
    | some (d2, st3) =>
      if d2.1 < T then some (st3, d2) else backtrackUp T hour k st3 d2

/-- Previous-period repair loop (customs.py 327-346): while the
wait of the previous hour is >= threshold AND num_servers <= max_val, add
one server, write the schedule and re-simulate.  The guard admits
num_servers == max_val, so the body can write max_val + 1. -/
def repairLoop (T max_val : Int) (hour : Nat) : Nat → Int → HourSt → Option HourSt
  | 0, _, _ => none
  | fuel + 1, prevW, st =>
    if prevW ≥ T ∧ st.num_servers ≤ max_val then
      let st1 := { st with num_servers := st.num_servers + 1 }
      let st2 := { st1 with sched := adjust_schedule hour st1.num_servers st1.sched }
      match runSim st2 with
      | none => none
      | some (d, st3) => repairLoop T max_val hour fuel d.2 st3
    else some st

/-- The while greedy_optimized is False loop of optimize (customs.py
240-357) for one hour.  ave is the wait of the current hour from the
simulate call made before the loop; prevHourSet states whether the
previous_hour pointer is set.  none = fuel or oracle exhausted. -/
def hourLoop (T max_val : Int) (hour : Nat) (prevHourSet : Bool) :
    Nat → Int → HourSt → Option HourSt
  | 0, _, _ => none
  | fuel + 1, ave, st =>
    let st1 :=
      if ave ≥ T then { st with num_servers := momentumStepUp st.num_servers max_val }
      else { st with num_servers := momentumStepDown st.num_servers }
    let st2 := { st1 with sched := adjust_schedule hour st1.num_servers st1.sched }
    match runSim st2 with
    | none => none
    | some (d, st3) =>
      if ave ≥ T ∧ d.1 < T then
        backtrackDown T hour (momentum - 1).toNat st3
      else if ave < T ∧ d.1 ≥ T then
        match backtrackUp T hour momentum.toNat st3 d with
        | none => none
        | some (st4, d2) =>
          if prevHourSet then repairLoop T max_val hour (fuel + 1) d2.2 st4
          else some st4
      else if ave ≥ T ∧ st3.num_servers = max_val then some st3
      else hourLoop T max_val hour prevHourSet fuel d.1 st3

/- ================= concrete fixtures for the claim theorems =========== -/

/-- A domestic passenger state with a sampled 60-second service time. -/
def pDom : Passenger :=
  { id := 1, flight_num := [], arrival_time := [], first_name := [],
    last_name := [], birthdate := [], nationality := ['d','o','m','e','s','t','i','c'],
    enque_time := 0, soujourn_time := -1, service_time := some 60,
    connect_flight := false, processed := false }

/-- pDom as the shared passenger variable would look mid-service with
completion second 100. -/
def pNow : Passenger := { pDom with soujourn_time := 100 }

/-- An online idle server with pDom queued. -/
def agentIdle : ServiceAgent :=
  { online := true, id := 1, queue := [pDom], is_serving := false,
    current_passenger := none, max_queue_size := none }

/-- An OFFLINE idle server with pDom queued. -/
def agentOffline : ServiceAgent := { agentIdle with online := false }

/-- A server in the middle of a transaction. -/
def agentServing : ServiceAgent :=
  { online := true, id := 1, queue := [], is_serving := true,
    current_passenger := some pDom, max_queue_size := none }

/-- A schedule with an id column and a 6-9 hour-window column whose
cell for server 1 is 1 (online). -/
def schedOn : ScheduleTable :=
  { colNames := [['i','d'], ['6','-','9']], rows := [(1, [1, 1])] }

/-- Same schedule shape with the 6-9 cell at 0 (offline). -/
def schedOff : ScheduleTable :=
  { colNames := [['i','d'], ['6','-','9']], rows := [(1, [1, 0])] }

/-- A subsection holding one freshly constructed server (id 1). -/
def secFresh : Subsection :=
  { id := ['d','o','m','e','s','t','i','c'],
    parallel_server := ParallelServer.init [ServiceAgent.init 1],
    assignment_agent := AssignmentAgent.init }

/-- A subsection holding one freshly constructed server with id 2,
absent from schedOn/schedOff. -/
def secAbsent : Subsection :=
  { secFresh with parallel_server := ParallelServer.init [ServiceAgent.init 2] }

/-- A subsection whose single server is mid-service on pDom. -/
def secMid : Subsection :=
  { secFresh with parallel_server := ParallelServer.init [agentServing] }

/-- A passenger whose nationality matches no configured subsection. -/
def pTransit : Passenger := { pDom with nationality := ['t','r','a','n','s','i','t'] }

/-- A plane carrying one domestic passenger. -/
def planeDom : Plane :=
  { id := 1, origin := [], airport_code := [], arrival_time := [],
    airline := [], flight_num := [], terminal := [],
    num_dom_passengers := 1, num_intl_passengers := 0, plist := [pDom] }

/-- A plane carrying one passenger of the unmatched category. -/
def planeTransit : Plane := { planeDom with plist := [pTransit] }

/-- Two qualifying servers with equal (empty) queues and ids 1 < 2;
max_queue_size holds a value here because the claim quantifies over
pool states in which servers qualify (with the as-constructed None
bound, no server ever qualifies under Python 2). -/
def cexS1 : ServiceAgent :=
  { online := true, id := 1, queue := [], is_serving := false,
    current_passenger := none, max_queue_size := some 5 }

/-- The id-2 twin of cexS1. -/
def cexS2 : ServiceAgent := { cexS1 with id := 2 }

/-- A one-row manifest for passenger id 7, domestic. -/
def manifestC9 : List ManifestRow :=
  [(7, [], [], [], [], ['d','o','m','e','s','t','i','c'])]

/-- Midnight arrival-time string. -/
def arrMidnight : List Char := ['0','0',':','0','0',':','0','0']

/- ================= theorems =========================================== -/

theorem pad2_good : ∀ n < 100, goodPad (pad2 n) = true := by decide

theorem pad2_parse : ∀ n < 100, charsToNat (pad2 n) = some n := by decide

theorem pySplitAux_no_sep (sep : Char) (xs : List Char) (acc : List Char)
    (h : sep ∉ xs) : pySplitAux sep xs acc = [acc.reverse ++ xs] := by
  induction xs generalizing acc with
  | nil => simp [pySplitAux]
  | cons c rest ih =>
    have hc : c ≠ sep := fun hcc => h (hcc ▸ List.mem_cons_self c rest)
    have hrest : sep ∉ rest := fun hr => h (List.mem_cons_of_mem c hr)
    simp only [pySplitAux, beq_iff_eq, if_neg hc]
    rw [ih (c :: acc) hrest]
    simp

theorem pySplitAux_sep (sep : Char) (xs ys : List Char) (acc : List Char)
    (h : sep ∉ xs) :
    pySplitAux sep (xs ++ sep :: ys) acc =
      (acc.reverse ++ xs) :: pySplitAux sep ys [] := by
  induction xs generalizing acc with
  | nil => simp [pySplitAux]
  | cons c rest ih =>
    have hc : c ≠ sep := fun hcc => h (hcc ▸ List.mem_cons_self c rest)
    have hrest : sep ∉ rest := fun hr => h (List.mem_cons_of_mem c hr)
    simp only [List.cons_append, pySplitAux, beq_iff_eq, if_neg hc, List.append_eq]
    rw [ih (c :: acc) hrest]
    simp

theorem pySplit_three (sep : Char) (xs ys zs : List Char)
    (hx : sep ∉ xs) (hy : sep ∉ ys) (hz : sep ∉ zs) :
    pySplit sep (xs ++ (sep :: (ys ++ (sep :: zs)))) = [xs, ys, zs] := by
  unfold pySplit
  rw [pySplitAux_sep sep xs (ys ++ sep :: zs) [] hx]
  rw [pySplitAux_sep sep ys zs [] hy]
  rw [pySplitAux_no_sep sep zs [] hz]
  simp

theorem goodPad_not_colon (cs : List Char) (h : goodPad cs = true) :
    ':' ∉ cs := by
  intro hmem
  have hall := (List.all_eq_true.mp ((Bool.and_eq_true _ _).mp h).2) ':' hmem
  simp at hall

theorem goodPad_elim (cs : List Char) (h : goodPad cs = true) :
    ∃ a b, cs = [a, b] ∧ a.isDigit = true ∧ b.isDigit = true ∧ ':' ∉ cs := by
  have hlen : cs.length = 2 := by
    have := ((Bool.and_eq_true _ _).mp h).1
    simpa using this
  obtain ⟨a, b, rfl⟩ := List.length_eq_two.mp hlen
  have hall := List.all_eq_true.mp ((Bool.and_eq_true _ _).mp h).2
  have ha := hall a (by simp)
  have hb := hall b (by simp)
  simp only [Bool.and_eq_true, bne_iff_ne, ne_eq] at ha hb
  refine ⟨a, b, rfl, ha.1, hb.1, ?_⟩
  intro hmem
  simp only [List.mem_cons, List.not_mem_nil, or_false] at hmem
  rcases hmem with h1 | h1
  · exact ha.2 h1.symm
  · exact hb.2 h1.symm

/-- Claim C10: for every 0 <= s < 86400 the conversion of s to an
HH:MM:SS time string and back is the identity, and the produced string
is a well-formed HH:MM:SS string accepted by the parser. -/
theorem C10_roundtrip (s : Nat) (hs : s < 86400) :
    getSec (getTtime s) = some s ∧ isHMS (getTtime s) = true := by
  have hh : s / 3600 < 100 := by omega
  have hm : s % 3600 / 60 < 100 := by omega
  have hs2 : s % 3600 % 60 < 100 := by omega
  obtain ⟨a1, b1, e1, d1a, d1b, n1⟩ := goodPad_elim _ (pad2_good _ hh)
  obtain ⟨a2, b2, e2, d2a, d2b, n2⟩ := goodPad_elim _ (pad2_good _ hm)
  obtain ⟨a3, b3, e3, d3a, d3b, n3⟩ := goodPad_elim _ (pad2_good _ hs2)
  have hsplit := pySplit_three ':' (pad2 (s / 3600)) (pad2 (s % 3600 / 60))
    (pad2 (s % 3600 % 60)) n1 n2 n3
  constructor
  · simp only [getSec, getTtime, hsplit]
    rw [pad2_parse _ hh, pad2_parse _ hm, pad2_parse _ hs2]
    simp only [Option.some.injEq]
    omega
  · simp only [getTtime, e1, e2, e3]
    simp [isHMS, d1a, d1b, d2a, d2b, d3a, d3b]

theorem C10_witness :
    getSec (getTtime 3661) = some 3661 ∧ isHMS (getTtime 3661) = true :=
  C10_roundtrip 3661 (by decide)


/- ===== selection-rule lemmas (for claim C4) =========================== -/

theorem lastMinBy_cons (s : ServiceAgent) (l : List ServiceAgent) :
    lastMinBy (s :: l) =
      match lastMinBy l with
      | none => some s
      | some t => if s.queue.length < t.queue.length then some s else some t := rfl

theorem lastMinBy_cons_ne_none (s : ServiceAgent) (l : List ServiceAgent) :
    lastMinBy (s :: l) ≠ none := by
  rw [lastMinBy_cons]
  rcases hl : lastMinBy l with _ | t
  · simp
  · by_cases hc : s.queue.length < t.queue.length
    · simp [hc]
    · simp [hc]

theorem lastMinBy_none_iff (l : List ServiceAgent) :
    lastMinBy l = none ↔ l = [] := by
  cases l with
  | nil => simp [lastMinBy]
  | cons s rest =>
    constructor
    · intro h
      exact absurd h (lastMinBy_cons_ne_none s rest)
    · intro h
      cases h

theorem lastMinBy_le_head (s : ServiceAgent) (l : List ServiceAgent) (m : ServiceAgent)
    (h : lastMinBy (s :: l) = some m) : m.queue.length ≤ s.queue.length := by
  rw [lastMinBy_cons] at h
  rcases hl : lastMinBy l with _ | t
  · rw [hl] at h
    have h2 : some s = some m := h
    injection h2 with h2
    subst h2
    exact le_refl _
  · rw [hl] at h
    have h2 : (if s.queue.length < t.queue.length then some s else some t) = some m := h
    by_cases hc : s.queue.length < t.queue.length
    · rw [if_pos hc] at h2
      injection h2 with h2
      subst h2
      exact le_refl _
    · rw [if_neg hc] at h2
      injection h2 with h2
      subst h2
      omega

theorem lastMinBy_mem : ∀ (l : List ServiceAgent) (m : ServiceAgent),
    lastMinBy l = some m → m ∈ l := by
  intro l
  induction l with
  | nil => intro m h; simp [lastMinBy] at h
  | cons s rest ih =>
    intro m h
    rw [lastMinBy_cons] at h
    rcases hl : lastMinBy rest with _ | t
    · rw [hl] at h
      have h2 : some s = some m := h
      injection h2 with h2
      subst h2
      exact List.mem_cons_self _ _
    · rw [hl] at h
      have h2 : (if s.queue.length < t.queue.length then some s else some t) = some m := h
      by_cases hc : s.queue.length < t.queue.length
      · rw [if_pos hc] at h2
        injection h2 with h2
        subst h2
        exact List.mem_cons_self _ _
      · rw [if_neg hc] at h2
        injection h2 with h2
        subst h2
        exact List.mem_cons_of_mem _ (ih t hl)

theorem lastMinBy_min : ∀ (l : List ServiceAgent) (m : ServiceAgent),
    lastMinBy l = some m → ∀ t ∈ l, m.queue.length ≤ t.queue.length := by
  intro l
  induction l with
  | nil => intro m h; simp [lastMinBy] at h
  | cons s rest ih =>
    intro m h u hu
    rcases List.mem_cons.mp hu with h1 | h1
    · rw [h1]
      exact lastMinBy_le_head s rest m h
    · rw [lastMinBy_cons] at h
      rcases hl : lastMinBy rest with _ | t
      · have : rest = [] := (lastMinBy_none_iff rest).mp hl
        subst this
        cases h1
      · rw [hl] at h
        have h2 : (if s.queue.length < t.queue.length then some s else some t) = some m := h
        have hmin := ih t hl u h1
        by_cases hc : s.queue.length < t.queue.length
        · rw [if_pos hc] at h2
          injection h2 with h2
          subst h2
          omega
        · rw [if_neg hc] at h2
          injection h2 with h2
          subst h2
          exact hmin

theorem lastMinBy_last : ∀ (l : List ServiceAgent) (m : ServiceAgent),
    lastMinBy l = some m →
    ∃ l1 l2, l = l1 ++ m :: l2 ∧ ∀ t ∈ l2, m.queue.length < t.queue.length := by
  intro l
  induction l with
  | nil => intro m h; simp [lastMinBy] at h
  | cons s rest ih =>
    intro m h
    rw [lastMinBy_cons] at h
    rcases hl : lastMinBy rest with _ | t
    · have hrest : rest = [] := (lastMinBy_none_iff rest).mp hl
      subst hrest
      rw [hl] at h
      have h2 : some s = some m := h
      injection h2 with h2
      subst h2
      exact ⟨[], [], rfl, by simp⟩
    · rw [hl] at h
      have h2 : (if s.queue.length < t.queue.length then some s else some t) = some m := h
      by_cases hc : s.queue.length < t.queue.length
      · rw [if_pos hc] at h2
        injection h2 with h2
        subst h2
        refine ⟨[], rest, rfl, ?_⟩
        intro u hu
        have := lastMinBy_min rest t hl u hu
        omega
      · rw [if_neg hc] at h2
        injection h2 with h2
        subst h2
        obtain ⟨l1, l2, heq, hlt⟩ := ih t hl
        exact ⟨s :: l1, l2, by rw [heq]; rfl, hlt⟩

theorem lastMinBy_absorb (m s : ServiceAgent) (l : List ServiceAgent)
    (h : s.queue.length ≤ m.queue.length) :
    lastMinBy (m :: s :: l) = lastMinBy (s :: l) := by
  rcases hl : lastMinBy (s :: l) with _ | r
  · exact absurd hl (lastMinBy_cons_ne_none s l)
  · have hr : r.queue.length ≤ s.queue.length := lastMinBy_le_head s l r hl
    rw [lastMinBy_cons m (s :: l), hl]
    show (if m.queue.length < r.queue.length then some m else some r) = some r
    rw [if_neg (by omega)]

theorem stepMin_none (s : ServiceAgent) : stepMin s none = some s := rfl

theorem stepMin_some (s t : ServiceAgent) :
    stepMin s (some t) =
      if s.queue.length < t.queue.length then some s else some t := rfl

theorem lastMinBy_step (s : ServiceAgent) (l : List ServiceAgent) :
    lastMinBy (s :: l) = stepMin s (lastMinBy l) := rfl

theorem lastMinBy_drop_mid (m s : ServiceAgent) (l : List ServiceAgent)
    (h : m.queue.length < s.queue.length) :
    lastMinBy (m :: s :: l) = lastMinBy (m :: l) := by
  rw [lastMinBy_step m (s :: l), lastMinBy_step s l, lastMinBy_step m l]
  rcases hl : lastMinBy l with _ | t
  · rw [stepMin_none, stepMin_none, stepMin_some, if_pos h]
  · rw [stepMin_some, stepMin_some]
    by_cases hst : s.queue.length < t.queue.length
    · rw [if_pos hst, stepMin_some, if_pos h,
        if_pos (show m.queue.length < t.queue.length by omega)]
    · rw [if_neg hst, stepMin_some]

theorem minQueueLoop_cons (mq : Option ServiceAgent) (s : ServiceAgent)
    (rest : List ServiceAgent) :
    minQueueLoop mq (s :: rest) =
      if qualifies s then
        match mq with
        | none => minQueueLoop (some s) rest
        | some m =>
          if s.queue.length ≤ m.queue.length then minQueueLoop (some s) rest
          else minQueueLoop (some m) rest
      else minQueueLoop mq rest := rfl

theorem minQueueLoop_eq : ∀ (l : List ServiceAgent) (acc : Option ServiceAgent),
    minQueueLoop acc l = lastMinBy (acc.toList ++ l.filter qualifies) := by
  intro l
  induction l with
  | nil =>
    intro acc
    cases acc with
    | none => rfl
    | some m => rfl
  | cons s rest ih =>
    intro acc
    rw [minQueueLoop_cons]
    by_cases hq : qualifies s = true
    · rw [if_pos hq]
      have hfil : (s :: rest).filter qualifies = s :: rest.filter qualifies := by
        simp [List.filter_cons, hq]
      rw [hfil]
      cases acc with
      | none =>
        rw [ih (some s)]
        simp
      | some m =>
        show (if s.queue.length ≤ m.queue.length then minQueueLoop (some s) rest
              else minQueueLoop (some m) rest) = _
        by_cases hle : s.queue.length ≤ m.queue.length
        · rw [if_pos hle, ih (some s)]
          show lastMinBy (s :: rest.filter qualifies) =
            lastMinBy (m :: s :: rest.filter qualifies)
          exact (lastMinBy_absorb m s _ hle).symm
        · rw [if_neg hle, ih (some m)]
          show lastMinBy (m :: rest.filter qualifies) =
            lastMinBy (m :: s :: rest.filter qualifies)
          exact (lastMinBy_drop_mid m s _ (by omega)).symm
    · rw [if_neg hq]
      rw [ih acc]
      have hfil : (s :: rest).filter qualifies = rest.filter qualifies := by
        simp only [List.filter_cons]
        rw [if_neg hq]
      rw [hfil]

theorem update_has_space_eq_any (servers : List ServiceAgent) :
    update_has_space_in_a_server_queue servers = servers.any qualifies := by
  induction servers with
  | nil => rfl
  | cons s rest ih =>
    show (if qualifies s then true else update_has_space_in_a_server_queue rest) = _
    cases hq : qualifies s
    · simp [hq, ih]
    · simp [hq]

/- ================= claim theorems ===================================== -/

/-- Claim C4, counterexample: with two online servers of equal (empty)
queue length, max queue size 5 and ids 1 < 2, update_min_queue returns
the id-2 server, not the lowest-id server the claim requires: the <=
comparison lets every later tied server replace the earlier one. -/
theorem C4_counterexample :
    qualifies cexS1 = true ∧ qualifies cexS2 = true ∧
    cexS1.queue.length = cexS2.queue.length ∧ cexS1.id < cexS2.id ∧
    update_min_queue [cexS1, cexS2] = some cexS2 ∧
    update_min_queue [cexS1, cexS2] ≠ some cexS1 := by decide

/-- Claim C4 (amended): among the servers that are online with queue
length strictly below max queue size, update_min_queue returns the one
with the smallest queue length, ties broken in favor of the LAST tied
server in server-list order (not the lowest id); it returns none
exactly when no server qualifies, and
update_has_space_in_a_server_queue reports space exactly when some
server qualifies. -/
theorem C4_amended_selection :
    (∀ servers : List ServiceAgent,
      update_min_queue servers = lastMinBy (servers.filter qualifies)) ∧
    (∀ servers : List ServiceAgent,
      (update_has_space_in_a_server_queue servers = true ↔
        ∃ s ∈ servers, qualifies s = true)) ∧
    (∀ (l : List ServiceAgent) (m : ServiceAgent), lastMinBy l = some m →
      m ∈ l ∧ (∀ t ∈ l, m.queue.length ≤ t.queue.length) ∧
      ∃ l1 l2, l = l1 ++ m :: l2 ∧ ∀ t ∈ l2, m.queue.length < t.queue.length) ∧
    (∀ l : List ServiceAgent, (lastMinBy l = none ↔ l = [])) := by
  refine ⟨?_, ?_, ?_, ?_⟩
  · intro servers
    have := minQueueLoop_eq servers none
    simpa [update_min_queue] using this
  · intro servers
    rw [update_has_space_eq_any]
    exact List.any_eq_true
  · intro l m h
    exact ⟨lastMinBy_mem l m h, lastMinBy_min l m h, lastMinBy_last l m h⟩
  · intro l
    exact lastMinBy_none_iff l

theorem C4_amended_witness :
    cexS2 ∈ [cexS1, cexS2] ∧
    (∀ t ∈ [cexS1, cexS2], cexS2.queue.length ≤ t.queue.length) ∧
    ∃ l1 l2, [cexS1, cexS2] = l1 ++ cexS2 :: l2 ∧
      ∀ t ∈ l2, cexS2.queue.length < t.queue.length :=
  C4_amended_selection.2.2.1 [cexS1, cexS2] cexS2 (by decide)

/-- Claim C7: the capacity bound is NOT a well-defined configured
value: ServiceAgent.__init__ leaves max_queue_size at None and nothing
ever assigns it, so under Python 2 the admission test
len(queue) < max_queue_size is False for every server as constructed -
no queue admission is ever allowed and no numeric bound exists (under
Python 3 the same comparison raises TypeError). -/
theorem C7_capacity_evidence :
    (ServiceAgent.init 1).max_queue_size = none ∧
    update_has_space_in_a_server_queue
      [{ ServiceAgent.init 1 with online := true, queue := [pDom] }] = false ∧
    update_min_queue [{ ServiceAgent.init 1 with online := true }] = none := by
  decide

/-- Claim C5: assign_passengers never moves a passenger: as soon as the
pool reports space, the body evaluates self.assignment_agent.queue,
but AssignmentAgent instances have no assignment_agent attribute, so
AttributeError is raised and the assignment queue is left unchanged
(the caller in customs.py additionally passes no pool argument at all,
and has_space_in_a_server_queue is the stale attribute initialized to
True, never the recomputed value). -/
theorem C5_assign_evidence :
    assign_passengers { queue := [pDom], current_passenger := none }
        (ParallelServer.init [ServiceAgent.init 1]) =
      ({ queue := [pDom], current_passenger := none },
        ParallelServer.init [ServiceAgent.init 1],
        some PyError.attributeErrorAssignmentAgent) ∧
    (ParallelServer.init [ServiceAgent.init 1]).has_space_in_a_server_queue = true := by
  decide

/-- Claim C1: serve never completes a passenger: in the real program
the globals GLOBAL_TIME and passenger are unbound, so starting service
pops the queue, sets is_serving, and then raises NameError - the
passenger is never marked processed and the ledger never receives it;
and even with both globals bound, at the completion instant serve
mutates the shared passenger variable (not the current_passenger
of the server itself) and the append call on the ServicedPassengers
object raises AttributeError before is_serving is reset. -/
theorem C1_serve_evidence :
    serve agentIdle none none { passengers := [] } =
      ({ agentIdle with
          queue := [], is_serving := true, current_passenger := some pDom },
        none, { passengers := [] }, some PyError.nameErrorGlobalTime) ∧
    pDom.processed = false ∧
    serve agentServing (some pNow) (some 100) { passengers := [] } =
      (agentServing, some { pNow with processed := true }, { passengers := [] },
        some PyError.attributeErrorAppend) ∧
    agentServing.is_serving = true ∧
    agentServing.current_passenger = some pDom := by
  decide

/-- Claim C2: an OFFLINE idle server with a queued passenger does begin
service: service_passengers calls serve for every server with a
non-empty queue without consulting online, so the head is dequeued and
is_serving set while offline (the run then dies on the unbound
globals); and going offline DOES disturb in-progress service, because
update_servers writes the schedule cell into is_serving, clearing the
mid-transaction flag while current_passenger is still occupied. -/
theorem C2_offline_evidence :
    agentOffline.online = false ∧ agentOffline.is_serving = false ∧
    agentOffline.queue = [pDom] ∧
    (service_passengers [agentOffline] none none { passengers := [] }).1 =
      [{ agentOffline with
          queue := [], is_serving := true, current_passenger := some pDom }] ∧
    (update_servers [secMid] schedOff (some 21600)).1 =
      [{ secMid with
          parallel_server := { secMid.parallel_server with
                                server_list := [{ agentServing with is_serving := false }] } }] ∧
    agentServing.is_serving = true ∧
    agentServing.current_passenger = some pDom := by
  decide

/-- Claim C3: update_servers never sets the online flag: in every real
run it raises NameError at once because the global GLOBAL_TIME is
unbound in customs_obj; with the time supplied, the schedule cell is
written into is_serving while online keeps its old value; and a server
whose id is missing from the schedule raises IndexError instead of
remaining offline. -/
theorem C3_update_servers_evidence :
    update_servers [secFresh] schedOn none =
      ([secFresh], some PyError.nameErrorGlobalTime) ∧
    update_servers [secFresh] schedOn (some 21600) =
      ([{ secFresh with
          parallel_server := { secFresh.parallel_server with
                                server_list := [{ ServiceAgent.init 1 with is_serving := true }] } }],
        none) ∧
    (ServiceAgent.init 1).online = false ∧
    (ServiceAgent.init 1).is_serving = false ∧
    (update_servers [secAbsent] schedOn (some 21600)).2 = some PyError.indexError := by
  decide

/-- Claim C6: handle_arrivals neither routes nor aborts cleanly: the
loop body iterates over the free global name subsections, which is
never bound, so a plane with any passenger raises NameError; and even
with the global bound, a passenger whose category matches no
subsection makes the while loop spin forever (the iteration removes
nothing), instead of failing fatally with a diagnostic. -/
theorem C6_arrivals_evidence :
    handle_arrivals none (some planeDom) 5 = HAOutcome.nameErr ∧
    ∀ fuel : Nat, handle_arrivals (some [secFresh]) (some planeTransit) fuel =
      HAOutcome.fuelOut := by
  constructor
  · decide
  · have loop : ∀ fuel : Nat,
        handleArrivalsLoop [secFresh] [pTransit] fuel = HAOutcome.fuelOut := by
      intro fuel
      induction fuel with
      | zero => decide
      | succ k ih =>
        have hstep : handleArrivalsLoop [secFresh] [pTransit] (k + 1) =
            handleArrivalsLoop [secFresh] [pTransit] k := rfl
        rw [hstep]
        exact ih
    intro fuel
    have hcall : handle_arrivals (some [secFresh]) (some planeTransit) fuel =
        handleArrivalsLoop [secFresh] [pTransit] fuel := rfl
    rw [hcall]
    exact loop fuel

/-- Claim C9: service durations are re-sampled on every simulate call:
each Passenger construction draws afresh from the unseeded global
stream, so building the same one-passenger manifest twice in a row
(exactly what repeated simulate calls inside optimize do) gives
passenger 7 duration 30 the first time and 31 the second time. -/
theorem C9_resample_evidence :
    (init_plist arrMidnight manifestC9 (fun i => i) 0).map
        (fun r => (r.1.map Passenger.service_time, r.2)) = some ([some 30], 1) ∧
    (init_plist arrMidnight manifestC9 (fun i => i) 1).map
        (fun r => (r.1.map Passenger.service_time, r.2)) = some ([some 31], 2) ∧
    (some 30 : Option Nat) ≠ some 31 := by
  decide

/-- Claim C8, counterexample: with threshold 10, max_val 2, hour 0,
initial count 1 and initial wait 5, the oracle (15, 12, 4) drives the
loop through a clamped momentum decrease and then the upward
backtracking loop, which adds one server at a time with no upper
clamp: the working schedule ends holding 3 in every hour cell although
max_val is 2. -/
theorem C8_counterexample :
    hourLoop 10 2 0 false 4 5
        { num_servers := 1, sched := List.replicate 24 1,
          oracle := [(15, 0), (12, 0), (4, 0)] } =
      some { num_servers := 3, sched := List.replicate 24 3, oracle := [] } ∧
    ¬(1 ≤ (3 : Int) ∧ (3 : Int) ≤ 2) := by
  decide

/-- Claim C8 (amended): only the momentum steps are clamped - they
always land in [1, max_val] - while the one-server backtracking steps
and the previous-period repair loop add or remove one with no clamp, so the
working schedule can receive counts outside the bounds: the repair
loop, whose guard admits num_servers == max_val, concretely writes
max_val + 1 = 3 into the schedule. -/
theorem C8_amended_clamping :
    (∀ n m : Int, 1 ≤ n → n ≤ m →
      1 ≤ momentumStepDown n ∧ momentumStepDown n ≤ m ∧
      1 ≤ momentumStepUp n m ∧ momentumStepUp n m ≤ m) ∧
    repairLoop 10 2 0 3 10
        { num_servers := 2, sched := List.replicate 24 2, oracle := [(0, 5)] } =
      some { num_servers := 3, sched := List.replicate 24 3, oracle := [] } := by
  constructor
  · intro n m h1 h2
    simp only [momentumStepUp, momentumStepDown, momentum]
    refine ⟨?_, ?_, ?_, ?_⟩ <;> split_ifs <;> omega
  · decide

theorem C8_amended_witness :
    1 ≤ momentumStepDown 1 ∧ momentumStepDown 1 ≤ 2 ∧
    1 ≤ momentumStepUp 1 2 ∧ momentumStepUp 1 2 ≤ 2 :=
  C8_amended_clamping.1 1 2 (by decide) (by decide)
